import Mathlib

/-!
# Verification of the globalsearch-benches harness

Shallow embedding of the two core components of the repository:

* the crash-safe source-swap orchestrator (`src/bin/compare.rs`):
  `DirectoryGuard` with its `swap` / `restore` operations and the `Drop`
  handler, plus the orchestrating `main`;
* the stochastic-trial statistics engine (`src/main.rs`): `mean`,
  `std_dev`, the per-dimension aggregation loop, seed derivation, and the
  JSON persistence of `AllStats` / `StatPoint`.

The filesystem relevant to the orchestrator consists of exactly three
directory slots under the root: `src` (active), `src-new` (candidate) and
`src-original-temp` (temporary).  Directory contents are abstracted as
`Nat` labels; `fs::rename` failures other than a missing source are
modelled by injected fault flags (one per rename site), since the real
cause (I/O error) is environmental.  The deletion of `baseline_results.json`
is outside this three-slot model and is assumed to succeed.  Real-valued
quantities (`f64`) are modelled as real numbers.
-/

/-- The three `std::io::ErrorKind`s distinguishable in `compare.rs`:
`NotFound` ("src-new not found"), `AlreadyExists` ("src-original-temp
already exists"), and any other environmental I/O failure of a rename. -/
inductive IOError where
  | notFound
  | alreadyExists
  | faultInjected
deriving DecidableEq

/-- The three directory slots of the orchestrator's root directory.
`none` means the directory does not exist; `some c` means it exists and
holds content labelled `c`. -/
structure FS where
  src : Option Nat
  srcNew : Option Nat
  srcTemp : Option Nat
deriving DecidableEq

/-- `struct DirectoryGuard { root, swapped }` of `compare.rs` (the root
path is fixed, so only the `swapped` flag is state). -/
structure DirectoryGuard where
  swapped : Bool
deriving DecidableEq

/-- Injected environmental failures, one flag per `fs::rename` call site
in `compare.rs` (`true` = that rename returns an I/O error even though its
source exists). -/
structure Faults where
  swapRename1 : Bool
  swapRename2 : Bool
  restoreRename1 : Bool
  restoreRename2 : Bool
deriving DecidableEq

/-- Result of running one guard operation: the filesystem afterwards, the
guard afterwards, and the `std::io::Result` outcome (`none` = `Ok(())`). -/
structure OpResult where
  fs : FS
  guard : DirectoryGuard
  err : Option IOError
deriving DecidableEq

/-- `DirectoryGuard::swap` (compare.rs lines 16-40): error if `src-new`
does not exist, error if `src-original-temp` exists, then
`rename(src, src-original-temp)?`, `rename(src-new, src)?`, and only then
`self.swapped = true`.  Each rename fails if its source is missing or its
fault flag is set; an error propagates immediately (`?`), leaving the
renames already performed in place. -/
def DirectoryGuard.swap (f : Faults) (fs : FS) (g : DirectoryGuard) : OpResult :=
  if fs.srcNew.isNone then ⟨fs, g, some .notFound⟩
  else if fs.srcTemp.isSome then ⟨fs, g, some .alreadyExists⟩
  else
    match fs.src with
    | none => ⟨fs, g, some .notFound⟩
    | some orig =>
      if f.swapRename1 then ⟨fs, g, some .faultInjected⟩
      else
        let fs1 : FS := ⟨none, fs.srcNew, some orig⟩
        match fs1.srcNew with
        | none => ⟨fs1, g, some .notFound⟩
        | some cand =>
          if f.swapRename2 then ⟨fs1, g, some .faultInjected⟩
          else ⟨⟨some cand, none, some orig⟩, ⟨true⟩, none⟩

/-- `DirectoryGuard::restore` (compare.rs lines 42-62): if not swapped,
`Ok(())` at once; otherwise `rename(src, src-new)?` when `src` exists,
then `rename(src-original-temp, src)?` when the temp exists, then
`self.swapped = false`.  An error propagates immediately, leaving
`swapped` still `true` and the renames already performed in place.
(In the guarded flows the rename targets are always absent, so target
collision cannot arise and is not modelled.) -/
def DirectoryGuard.restore (f : Faults) (fs : FS) (g : DirectoryGuard) : OpResult :=
  if !g.swapped then ⟨fs, g, none⟩
  else
    match fs.src with
    | some c =>
      if f.restoreRename1 then ⟨fs, g, some .faultInjected⟩
      else
        let fs1 : FS := ⟨none, some c, fs.srcTemp⟩
        match fs1.srcTemp with
        | some t =>
          if f.restoreRename2 then ⟨fs1, g, some .faultInjected⟩
          else ⟨⟨some t, fs1.srcNew, none⟩, ⟨false⟩, none⟩
        | none => ⟨fs1, ⟨false⟩, none⟩
    | none =>
      match fs.srcTemp with
      | some t =>
        if f.restoreRename2 then ⟨fs, g, some .faultInjected⟩
        else ⟨⟨some t, fs.srcNew, none⟩, ⟨false⟩, none⟩
      | none => ⟨fs, ⟨false⟩, none⟩

/-- `impl Drop for DirectoryGuard` (compare.rs lines 65-74): on scope
exit, call `restore` only `if self.swapped`, and swallow (merely log) any
restore error. -/
def dropGuard (f : Faults) (fs : FS) (g : DirectoryGuard) : FS × DirectoryGuard :=
  if g.swapped then
    let r := DirectoryGuard.restore f fs g
    (r.fs, r.guard)
  else (fs, g)

/-- Observable steps of `compare.rs`'s `main`: the single-phase benchmark
run, the phase-1 baseline run, the attempted directory swap, the
`cargo clean -p globalsearch` step, and the phase-2 candidate run. -/
inductive Event where
  | measureStandard
  | measureBaseline
  | swapAttempt
  | cleanPackage
  | measureCandidate
deriving DecidableEq

/-- Whether an event is a measurement phase (`run_bench`). -/
def Event.isMeasurement : Event → Bool
  | .measureStandard => true
  | .measureBaseline => true
  | .measureCandidate => true
  | _ => false

/-- Environment of one `compare.rs` execution: rename fault flags and the
outcomes of the external commands (`run_bench` per phase; spawning and
exit status of `cargo clean`). -/
structure Env where
  faults : Faults
  benchStandardOk : Bool
  benchBaselineOk : Bool
  cleanSpawnOk : Bool
  cleanExitOk : Bool
  benchCandidateOk : Bool

/-- Outcome of `compare.rs`'s `main`: the ordered trace of observable
steps, the final filesystem, and whether `main` returned `Ok`. -/
structure MainResult where
  trace : List Event
  fs : FS
  ok : Bool
deriving DecidableEq

/-- `main` of `compare.rs` (lines 76-122).  If `src-new` is absent, run
the single-phase benchmark and return.  Otherwise run phase 1
(`run_bench ... --save-json`), then inside the guard scope: `swap()?`
(on error the guard drops — a no-op since not yet swapped — and `main`
returns the error), `cargo clean` (a spawn failure propagates via `?`
and drops the guard; a mere non-zero exit is only a warning), phase 2
(`run_bench ... --load-baseline`), and the guard drop restores on every
exit path of the scope. -/
def compareMain (env : Env) (fs : FS) : MainResult :=
  if fs.srcNew.isNone then
    ⟨[.measureStandard], fs, env.benchStandardOk⟩
  else if !env.benchBaselineOk then
    ⟨[.measureBaseline], fs, false⟩
  else
    let s := DirectoryGuard.swap env.faults fs ⟨false⟩
    match s.err with
    | some _ =>
      let d := dropGuard env.faults s.fs s.guard
      ⟨[.measureBaseline, .swapAttempt], d.1, false⟩
    | none =>
      if !env.cleanSpawnOk then
        let d := dropGuard env.faults s.fs s.guard
        ⟨[.measureBaseline, .swapAttempt, .cleanPackage], d.1, false⟩
      else
        let d := dropGuard env.faults s.fs s.guard
        ⟨[.measureBaseline, .swapAttempt, .cleanPackage, .measureCandidate], d.1,
          env.benchCandidateOk⟩

/-- `fn mean(data: &[f64]) -> f64` (main.rs lines 169-172):
`data.iter().sum() / data.len()`, with `f64` modelled as real numbers. -/
noncomputable def mean (data : List ℝ) : ℝ :=
  data.sum / (data.length : ℝ)

/-- `fn std_dev(data: &[f64], mean: f64) -> f64` (main.rs lines 174-184):
the square root of `Σ (mean - value)^2 / data.len()` — a population
variance (division by `len`, not `len - 1`). -/
noncomputable def std_dev (data : List ℝ) (m : ℝ) : ℝ :=
  Real.sqrt ((data.map (fun value => (m - value) * (m - value))).sum / (data.length : ℝ))

/-- Seed for the trial of index `i` (main.rs line 102):
`let seed = i as u64 * 702983;`, with `u64` multiplication wrapping
modulo `2^64`. -/
def seedOf (i : Nat) : Nat :=
  i * 702983 % 2 ^ 64

/-- `struct RunResult` of `src/functions/mod.rs`: the outcome of one
optimizer invocation (durations converted by `as_secs_f64` are modelled
as real numbers). -/
structure RunResult where
  success : Bool
  runtime : ℝ
  stage1_runtime : ℝ
  stage2_runtime : ℝ
  best_obj : ℝ
  solution_set_size : Nat

/-- `trait BenchmarkFn` of `src/functions/mod.rs`: a named problem with a
`run(dim, seed)` invocation (the optimizer call itself is an external
black box, so `run` is carried as data) and a `supported_dims` method. -/
structure BenchmarkFn where
  name : String
  run : Nat → Nat → RunResult
  supported_dims : List Nat → List Nat

/-- `SixHumpCamel::supported_dims` (six_hump_camel.rs lines 16-18)
ignores the requested default dimensions and returns `vec![2]`. -/
def sixHumpCamelBench (run : Nat → Nat → RunResult) : BenchmarkFn :=
  ⟨"SixHumpCamel", run, fun _ => [2]⟩

/-- `CrossInTray::supported_dims` (cross_in_tray.rs) likewise returns
`vec![2]` regardless of the requested defaults. -/
def crossInTrayBench (run : Nat → Nat → RunResult) : BenchmarkFn :=
  ⟨"CrossInTray", run, fun _ => [2]⟩

/-- A problem using the trait's default `supported_dims`, which returns
the requested default dimension list unchanged (mod.rs lines 23-25). -/
def defaultDimsBench (name : String) (run : Nat → Nat → RunResult) : BenchmarkFn :=
  ⟨name, run, fun default_dims => default_dims⟩

/-- `struct StatPoint` of main.rs (lines 39-50), generic in the type of
its eight `f64` fields so that persistence can be stated for the payload
values themselves. -/
structure StatPoint (α : Type) where
  dim : Nat
  success_rate : α
  avg_runtime_sec : α
  std_runtime_sec : α
  avg_stage1_sec : α
  avg_stage2_sec : α
  avg_solution_set_size : α
  std_solution_set_size : α
  avg_best_obj : α
deriving DecidableEq

/-- The inner loop of `main` (main.rs lines 92-137) for one dimension:
run `runs` trials with seeds `seedOf 0, …, seedOf (runs-1)`, collect the
per-trial series, and reduce them into one `StatPoint`. -/
noncomputable def aggregateDim (run : Nat → Nat → RunResult) (dim runs : Nat) :
    StatPoint ℝ :=
  let results := (List.range runs).map (fun i => run dim (seedOf i))
  let runtimes := results.map (fun r => r.runtime)
  let stage1_runtimes := results.map (fun r => r.stage1_runtime)
  let stage2_runtimes := results.map (fun r => r.stage2_runtime)
  let solution_set_sizes := results.map (fun r => (r.solution_set_size : ℝ))
  let best_objs := results.map (fun r => r.best_obj)
  let successes := results.countP (fun r => r.success)
  let avg_runtime := mean runtimes
  let avg_sol_size := mean solution_set_sizes
  { dim := dim
    success_rate := (successes : ℝ) / (runs : ℝ)
    avg_runtime_sec := avg_runtime
    std_runtime_sec := std_dev runtimes avg_runtime
    avg_stage1_sec := mean stage1_runtimes
    avg_stage2_sec := mean stage2_runtimes
    avg_solution_set_size := avg_sol_size
    std_solution_set_size := std_dev solution_set_sizes avg_sol_size
    avg_best_obj := mean best_objs }

/-- The per-problem loop of `main` (main.rs lines 86-141): ask the
problem for its supported dimensions given the defaults and push one
`StatPoint` per returned dimension, in the returned order. -/
noncomputable def runStats (f : BenchmarkFn) (default_dims : List Nat) (runs : Nat) :
    List (StatPoint ℝ) :=
  (f.supported_dims default_dims).map (fun dim => aggregateDim f.run dim runs)

/-- `struct AllStats` of main.rs (lines 52-56): the map from function
name to its ordered `StatPoint` list, modelled as the association list of
its entries. -/
structure AllStats (α : Type) where
  data : List (String × List (StatPoint α))
deriving DecidableEq

/-- JSON documents as produced by `serde_json` for `AllStats`, with the
numeric `f64` leaves carrying opaque payload values of type `α` (the
textual float encoding round-trips bit-for-bit and is not re-modelled). -/
inductive JsonVal (α : Type) where
  | num : α → JsonVal α
  | nat : Nat → JsonVal α
  | arr : List (JsonVal α) → JsonVal α
  | obj : List (String × JsonVal α) → JsonVal α

/-- Derived `Serialize` for `StatPoint`: an object with the nine fields
in declaration order. -/
def serializeStatPoint {α : Type} (p : StatPoint α) : JsonVal α :=
  .obj [("dim", .nat p.dim),
        ("success_rate", .num p.success_rate),
        ("avg_runtime_sec", .num p.avg_runtime_sec),
        ("std_runtime_sec", .num p.std_runtime_sec),
        ("avg_stage1_sec", .num p.avg_stage1_sec),
        ("avg_stage2_sec", .num p.avg_stage2_sec),
        ("avg_solution_set_size", .num p.avg_solution_set_size),
        ("std_solution_set_size", .num p.std_solution_set_size),
        ("avg_best_obj", .num p.avg_best_obj)]

/-- Field access of the derived `Deserialize`: a numeric field looked up
by name. -/
def getNum {α : Type} (l : List (String × JsonVal α)) (k : String) : Option α :=
  match l.lookup k with
  | some (.num x) => some x
  | _ => none

/-- Field access of the derived `Deserialize`: a `usize` field looked up
by name. -/
def getNat {α : Type} (l : List (String × JsonVal α)) (k : String) : Option Nat :=
  match l.lookup k with
  | some (.nat n) => some n
  | _ => none

/-- Derived `Deserialize` for `StatPoint`: read the nine named fields
from an object, failing on anything else. -/
def deserializeStatPoint {α : Type} (j : JsonVal α) : Option (StatPoint α) :=
  match j with
  | .obj l => do
    let dim ← getNat l "dim"
    let success_rate ← getNum l "success_rate"
    let avg_runtime_sec ← getNum l "avg_runtime_sec"
    let std_runtime_sec ← getNum l "std_runtime_sec"
    let avg_stage1_sec ← getNum l "avg_stage1_sec"
    let avg_stage2_sec ← getNum l "avg_stage2_sec"
    let avg_solution_set_size ← getNum l "avg_solution_set_size"
    let std_solution_set_size ← getNum l "std_solution_set_size"
    let avg_best_obj ← getNum l "avg_best_obj"
    pure ⟨dim, success_rate, avg_runtime_sec, std_runtime_sec, avg_stage1_sec,
          avg_stage2_sec, avg_solution_set_size, std_solution_set_size, avg_best_obj⟩
  | _ => none

/-- Element-wise decoding of a JSON sequence, failing as soon as one
element fails (serde's sequence visitor). -/
def decodeAll {α β : Type} (f : α → Option β) : List α → Option (List β)
  | [] => some []
  | x :: xs => do
    let y ← f x
    let ys ← decodeAll f xs
    pure (y :: ys)

/-- Derived `Serialize` for `AllStats`: one top-level `"data"` object
mapping each function name to the array of its serialized points, in
entry order. -/
def serializeAllStats {α : Type} (s : AllStats α) : JsonVal α :=
  .obj [("data", .obj (s.data.map (fun kv =>
    (kv.1, .arr (kv.2.map serializeStatPoint)))))]

/-- Decoding of one `"data"` entry: the function name together with its
array of points. -/
def decodeEntry {α : Type} (kv : String × JsonVal α) :
    Option (String × List (StatPoint α)) :=
  match kv.2 with
  | .arr ps => do
    let pts ← decodeAll deserializeStatPoint ps
    pure (kv.1, pts)
  | _ => none

/-- Derived `Deserialize` for `AllStats`: read the `"data"` object and
decode each entry's array of points. -/
def deserializeAllStats {α : Type} (j : JsonVal α) : Option (AllStats α) :=
  match j with
  | .obj l =>
    match l.lookup "data" with
    | some (.obj entries) => do
      let d ← decodeAll decodeEntry entries
      pure ⟨d⟩
    | _ => none
  | _ => none

/-- C2 (counterexample): a filesystem state in which the stale temp
directory exists but the candidate is missing.  `swap` fails with
`NotFound` (the candidate check runs first, compare.rs line 21), not with
the `AlreadyExists` error of `StalePreviousRun` — refuting the claim that
every state with a stale temp directory fails with `StalePreviousRun`. -/
theorem C2_counterexample :
    (DirectoryGuard.swap ⟨false, false, false, false⟩ ⟨some 0, none, some 2⟩
        ⟨false⟩).err = some IOError.notFound ∧
    some IOError.notFound ≠ some IOError.alreadyExists := by
  decide

/-- C2 (amended): if the stale temp directory exists AND the candidate
directory exists, `swap` fails with the `AlreadyExists` error of
`StalePreviousRun`, renaming nothing (filesystem and guard unchanged);
if the candidate directory does not exist, `swap` fails with `NotFound`
(this check runs first), again renaming nothing. -/
theorem C2_swap_preconditions (fs : FS) (g : DirectoryGuard) (f : Faults) :
    (fs.srcTemp.isSome = true → fs.srcNew.isSome = true →
      DirectoryGuard.swap f fs g = ⟨fs, g, some .alreadyExists⟩) ∧
    (fs.srcNew = none →
      DirectoryGuard.swap f fs g = ⟨fs, g, some .notFound⟩) := by
  obtain ⟨src, srcNew, srcTemp⟩ := fs
  cases srcNew <;> cases srcTemp <;>
    simp [DirectoryGuard.swap]

/-- C2 (witness): instantiation of `C2_swap_preconditions` at a concrete
state with both directories present. -/
theorem C2_swap_preconditions_witness :
    ((Option.isSome (some 2 : Option Nat) = true → Option.isSome (some 1 : Option Nat) = true →
      DirectoryGuard.swap ⟨false, false, false, false⟩ ⟨some 0, some 1, some 2⟩ ⟨false⟩ =
        ⟨⟨some 0, some 1, some 2⟩, ⟨false⟩, some .alreadyExists⟩) ∧
    ((some 1 : Option Nat) = none →
      DirectoryGuard.swap ⟨false, false, false, false⟩ ⟨some 0, some 1, some 2⟩ ⟨false⟩ =
        ⟨⟨some 0, some 1, some 2⟩, ⟨false⟩, some .notFound⟩)) ∧
    (DirectoryGuard.swap ⟨false, false, false, false⟩ ⟨some 0, some 1, some 2⟩ ⟨false⟩).err
      = some .alreadyExists :=
  ⟨C2_swap_preconditions ⟨some 0, some 1, some 2⟩ ⟨false⟩ ⟨false, false, false, false⟩,
   by decide⟩

/-- C3: Restore is a no-op when never swapped, and after a single
successful swap (with no injected restore faults) a first restore
succeeds and returns the filesystem to the original layout, while a
second restore is a successful no-op leaving the same layout — so the
filesystem is identical after either call and the guard ends unswapped. -/
theorem C3_restore_idempotent (f : Faults) (fs : FS)
    (hswap : (DirectoryGuard.swap f fs ⟨false⟩).err = none)
    (h1 : f.restoreRename1 = false) (h2 : f.restoreRename2 = false) :
    (∀ fs' : FS, DirectoryGuard.restore f fs' ⟨false⟩ = ⟨fs', ⟨false⟩, none⟩) ∧
    DirectoryGuard.restore f (DirectoryGuard.swap f fs ⟨false⟩).fs
        (DirectoryGuard.swap f fs ⟨false⟩).guard = ⟨fs, ⟨false⟩, none⟩ ∧
    DirectoryGuard.restore f fs ⟨false⟩ = ⟨fs, ⟨false⟩, none⟩ := by
  obtain ⟨src, srcNew, srcTemp⟩ := fs
  obtain ⟨f1, f2, f3, f4⟩ := f
  subst h1 h2
  refine ⟨fun fs' => by simp [DirectoryGuard.restore], ?_, ?_⟩ <;>
    cases src <;> cases srcNew <;> cases srcTemp <;> cases f1 <;> cases f2 <;>
      simp_all [DirectoryGuard.swap, DirectoryGuard.restore]

/-- C3 (witness): instantiation of `C3_restore_idempotent` after the
concrete swap of content `1` (active) with content `2` (candidate). -/
theorem C3_restore_idempotent_witness :
    ((DirectoryGuard.swap ⟨false, false, false, false⟩ ⟨some 1, some 2, none⟩ ⟨false⟩).err = none ∧
      (false = false) ∧ (false = false)) ∧
    ((∀ fs' : FS, DirectoryGuard.restore ⟨false, false, false, false⟩ fs' ⟨false⟩ =
        ⟨fs', ⟨false⟩, none⟩) ∧
      DirectoryGuard.restore ⟨false, false, false, false⟩
          (DirectoryGuard.swap ⟨false, false, false, false⟩ ⟨some 1, some 2, none⟩ ⟨false⟩).fs
          (DirectoryGuard.swap ⟨false, false, false, false⟩ ⟨some 1, some 2, none⟩ ⟨false⟩).guard
        = ⟨⟨some 1, some 2, none⟩, ⟨false⟩, none⟩ ∧
      DirectoryGuard.restore ⟨false, false, false, false⟩ ⟨some 1, some 2, none⟩ ⟨false⟩ =
        ⟨⟨some 1, some 2, none⟩, ⟨false⟩, none⟩) :=
  ⟨⟨by decide, rfl, rfl⟩,
   C3_restore_idempotent ⟨false, false, false, false⟩ ⟨some 1, some 2, none⟩
     (by decide) rfl rfl⟩

/-- C1 (counterexample): concrete execution in which
`rename(src, src-original-temp)` succeeded and `rename(src-new, src)`
failed with an injected I/O error.  Since `swapped` is still `false`, the
guard's `Drop` performs no restore, and at scope exit the original
implementation (content `10`) sits at `src-original-temp` while the
active location `src` is empty — refuting the claim that the restore
logic returns the original implementation to the active location. -/
theorem C1_counterexample :
    (DirectoryGuard.swap ⟨false, true, false, false⟩ ⟨some 10, some 20, none⟩ ⟨false⟩ =
      ⟨⟨none, some 20, some 10⟩, ⟨false⟩, some .faultInjected⟩) ∧
    compareMain ⟨⟨false, true, false, false⟩, true, true, true, true, true⟩
        ⟨some 10, some 20, none⟩ =
      ⟨[.measureBaseline, .swapAttempt], ⟨none, some 20, some 10⟩, false⟩ ∧
    (compareMain ⟨⟨false, true, false, false⟩, true, true, true, true, true⟩
        ⟨some 10, some 20, none⟩).fs.src ≠ some 10 := by
  decide

/-- C1 (amended): a rename failure during `swap` is fatal (`main`
returns an error), and the `swapped` flag is set exactly when both
renames succeeded (`swap` returns `Ok`); consequently, when
`rename(active, temp)` succeeds but `rename(candidate, active)` fails,
the guard is still unswapped, the scope-exit drop performs no restore,
and the original implementation is left at the temporary location with
the active location empty. -/
theorem C1_partial_swap_failure (env : Env) (orig cand : Nat)
    (h1 : env.faults.swapRename1 = false) (h2 : env.faults.swapRename2 = true)
    (hb : env.benchBaselineOk = true) :
    DirectoryGuard.swap env.faults ⟨some orig, some cand, none⟩ ⟨false⟩ =
      ⟨⟨none, some cand, some orig⟩, ⟨false⟩, some .faultInjected⟩ ∧
    compareMain env ⟨some orig, some cand, none⟩ =
      ⟨[.measureBaseline, .swapAttempt], ⟨none, some cand, some orig⟩, false⟩ ∧
    (∀ (f : Faults) (fs : FS),
      (DirectoryGuard.swap f fs ⟨false⟩).guard.swapped = true ↔
        (DirectoryGuard.swap f fs ⟨false⟩).err = none) := by
  refine ⟨?_, ?_, ?_⟩
  · simp [DirectoryGuard.swap, h1, h2]
  · simp [compareMain, DirectoryGuard.swap, dropGuard, h1, h2, hb]
  · intro f fs
    obtain ⟨src, srcNew, srcTemp⟩ := fs
    cases src <;> cases srcNew <;> cases srcTemp <;>
      by_cases hf1 : f.swapRename1 <;> by_cases hf2 : f.swapRename2 <;>
        simp [DirectoryGuard.swap, hf1, hf2]

/-- C1 (witness): instantiation of `C1_partial_swap_failure` at a
concrete environment failing only the second swap rename. -/
theorem C1_partial_swap_failure_witness :
    ((⟨⟨false, true, false, false⟩, true, true, true, true, true⟩ : Env).faults.swapRename1 = false ∧
      (⟨⟨false, true, false, false⟩, true, true, true, true, true⟩ : Env).faults.swapRename2 = true ∧
      (⟨⟨false, true, false, false⟩, true, true, true, true, true⟩ : Env).benchBaselineOk = true) ∧
    (DirectoryGuard.swap ⟨false, true, false, false⟩ ⟨some 3, some 4, none⟩ ⟨false⟩ =
        ⟨⟨none, some 4, some 3⟩, ⟨false⟩, some .faultInjected⟩ ∧
      compareMain ⟨⟨false, true, false, false⟩, true, true, true, true, true⟩
          ⟨some 3, some 4, none⟩ =
        ⟨[.measureBaseline, .swapAttempt], ⟨none, some 4, some 3⟩, false⟩ ∧
      (∀ (f : Faults) (fs : FS),
        (DirectoryGuard.swap f fs ⟨false⟩).guard.swapped = true ↔
          (DirectoryGuard.swap f fs ⟨false⟩).err = none)) :=
  ⟨⟨rfl, rfl, rfl⟩,
   C1_partial_swap_failure ⟨⟨false, true, false, false⟩, true, true, true, true, true⟩
     3 4 rfl rfl rfl⟩

/-- C4 (counterexample): concrete execution of the orchestrator in which
the swap fails (stale temp directory present) and the run aborts with an
error, yet one measurement phase — the phase-1 baseline `run_bench` of
compare.rs line 94 — has already run before the abort point, refuting
the claim that no measurement phase runs prior to a swap-failure abort. -/
theorem C4_counterexample :
    (DirectoryGuard.swap ⟨false, false, false, false⟩ ⟨some 0, some 1, some 2⟩
        ⟨false⟩).err.isSome = true ∧
    compareMain ⟨⟨false, false, false, false⟩, true, true, true, true, true⟩
        ⟨some 0, some 1, some 2⟩ =
      ⟨[.measureBaseline, .swapAttempt], ⟨some 0, some 1, some 2⟩, false⟩ ∧
    ([Event.measureBaseline, Event.swapAttempt].countP Event.isMeasurement) = 1 := by
  decide

/-- C4 (amended): in comparison mode (candidate present), an I/O failure
during `swap` aborts the run with a fatal error before the phase-2
(candidate) measurement begins: `measureCandidate` never appears in the
trace and `main` returns an error.  (The phase-1 baseline measurement
precedes the swap and may already have run.) -/
theorem C4_swap_failure_aborts_phase2 (env : Env) (fs : FS)
    (hnew : fs.srcNew.isSome = true)
    (hswap : (DirectoryGuard.swap env.faults fs ⟨false⟩).err ≠ none) :
    Event.measureCandidate ∉ (compareMain env fs).trace ∧
    (compareMain env fs).ok = false := by
  have hnone : ¬ fs.srcNew.isNone := by
    simp [Option.isNone_iff_eq_none]
    intro h
    rw [h] at hnew
    simp at hnew
  by_cases hb : env.benchBaselineOk
  · cases hs : (DirectoryGuard.swap env.faults fs ⟨false⟩).err with
    | none => exact absurd hs hswap
    | some e =>
      simp [compareMain, hnone, hb, hs]
  · simp [compareMain, hnone, hb]

/-- C4 (witness): instantiation of `C4_swap_failure_aborts_phase2` at the
stale-temp state of the counterexample. -/
theorem C4_swap_failure_aborts_phase2_witness :
    ((⟨some 0, some 1, some 2⟩ : FS).srcNew.isSome = true ∧
      (DirectoryGuard.swap ⟨false, false, false, false⟩ ⟨some 0, some 1, some 2⟩
          ⟨false⟩).err ≠ none) ∧
    (Event.measureCandidate ∉
        (compareMain ⟨⟨false, false, false, false⟩, true, true, true, true, true⟩
          ⟨some 0, some 1, some 2⟩).trace ∧
      (compareMain ⟨⟨false, false, false, false⟩, true, true, true, true, true⟩
          ⟨some 0, some 1, some 2⟩).ok = false) :=
  ⟨⟨by decide, by decide⟩,
   C4_swap_failure_aborts_phase2 ⟨⟨false, false, false, false⟩, true, true, true, true, true⟩
     ⟨some 0, some 1, some 2⟩ (by decide) (by decide)⟩

/-- C7: when the candidate directory `src-new` does not exist (and the
single benchmark run succeeds), the orchestrator runs exactly one
measurement phase, performs no swap attempt and no rename (the
filesystem is returned unchanged), and exits successfully. -/
theorem C7_no_candidate_single_phase (env : Env) (fs : FS)
    (hnew : fs.srcNew = none) (hb : env.benchStandardOk = true) :
    compareMain env fs = ⟨[.measureStandard], fs, true⟩ ∧
    [Event.measureStandard].countP Event.isMeasurement = 1 ∧
    Event.swapAttempt ∉ [Event.measureStandard] := by
  refine ⟨?_, by decide, by decide⟩
  simp [compareMain, hnew, hb]

/-- C7 (witness): instantiation of `C7_no_candidate_single_phase` at a
concrete state without a candidate directory. -/
theorem C7_no_candidate_single_phase_witness :
    ((⟨some 5, none, none⟩ : FS).srcNew = none ∧
      (⟨⟨false, false, false, false⟩, true, true, true, true, true⟩ : Env).benchStandardOk
        = true) ∧
    (compareMain ⟨⟨false, false, false, false⟩, true, true, true, true, true⟩
        ⟨some 5, none, none⟩ = ⟨[.measureStandard], ⟨some 5, none, none⟩, true⟩ ∧
      [Event.measureStandard].countP Event.isMeasurement = 1 ∧
      Event.swapAttempt ∉ [Event.measureStandard]) :=
  ⟨⟨rfl, rfl⟩,
   C7_no_candidate_single_phase ⟨⟨false, false, false, false⟩, true, true, true, true, true⟩
     ⟨some 5, none, none⟩ rfl rfl⟩

/-- Per-point round trip: the derived deserializer inverts the derived
serializer on every `StatPoint`, each field recovered by name. -/
theorem serializeStatPoint_leftInverse {α : Type} (p : StatPoint α) :
    deserializeStatPoint (serializeStatPoint p) = some p := by
  obtain ⟨d, a, b, c, e, f, g, h, i⟩ := p
  rfl

/-- Element-wise decoding inverts element-wise encoding. -/
theorem decodeAll_map {α β : Type} (f : β → α) (g : α → Option β)
    (h : ∀ b, g (f b) = some b) (l : List β) :
    decodeAll g (l.map f) = some l := by
  induction l with
  | nil => rfl
  | cons x xs ih => simp [decodeAll, h, ih]

/-- Entry-wise round trip for one `"data"` entry. -/
theorem decodeEntry_leftInverse {α : Type} (kv : String × List (StatPoint α)) :
    decodeEntry (kv.1, JsonVal.arr (kv.2.map serializeStatPoint)) = some kv := by
  simp [decodeEntry, decodeAll_map serializeStatPoint deserializeStatPoint
    serializeStatPoint_leftInverse kv.2]

/-- C6: deserializing a serialized non-empty `RunStatistics` document
reproduces every `StatPoint` field (each numeric payload recovered
unchanged) and preserves the order of each per-problem `StatPoint` list:
the result is the original `AllStats` value itself. -/
theorem C6_baseline_roundtrip {α : Type} (s : AllStats α) (hne : s.data ≠ []) :
    deserializeAllStats (serializeAllStats s) = some s := by
  obtain ⟨data⟩ := s
  have hd : decodeAll decodeEntry
      (data.map (fun kv => (kv.1, JsonVal.arr (kv.2.map serializeStatPoint)))) =
        some data := by
    refine decodeAll_map _ _ ?_ data
    intro b
    exact decodeEntry_leftInverse b
  simp [serializeAllStats, deserializeAllStats, hd]

/-- C6 (witness): instantiation of `C6_baseline_roundtrip` at a concrete
one-problem, two-point statistics value over rational payloads. -/
theorem C6_baseline_roundtrip_witness :
    ((⟨[("Ackley", [⟨10, 1, 2, 3, 4, 5, 6, 7, 8⟩, ⟨50, 9, 10, 11, 12, 13, 14, 15, 16⟩])]⟩ :
        AllStats ℚ).data ≠ []) ∧
    deserializeAllStats (serializeAllStats
        (⟨[("Ackley", [⟨10, 1, 2, 3, 4, 5, 6, 7, 8⟩, ⟨50, 9, 10, 11, 12, 13, 14, 15, 16⟩])]⟩ :
          AllStats ℚ)) =
      some ⟨[("Ackley", [⟨10, 1, 2, 3, 4, 5, 6, 7, 8⟩, ⟨50, 9, 10, 11, 12, 13, 14, 15, 16⟩])]⟩ :=
  ⟨by simp,
   C6_baseline_roundtrip
     (⟨[("Ackley", [⟨10, 1, 2, 3, 4, 5, 6, 7, 8⟩, ⟨50, 9, 10, 11, 12, 13, 14, 15, 16⟩])]⟩ :
       AllStats ℚ) (by simp)⟩

/-- C5: `mean` and `std_dev` are population statistics.  For every
non-empty batch, `mean` is the arithmetic average (sum over count) and
`std_dev` squares back to the mean squared deviation from the mean
(division by the count `N`, not `N - 1`); a single-value batch has
standard deviation `0`, and for every `N ≥ 1` a batch of `N` identical
values has standard deviation `0`. -/
theorem C5_population_statistics (data : List ℝ) (hdata : data ≠ [])
    (n : Nat) (hn : 1 ≤ n) (x y : ℝ) :
    mean data * (data.length : ℝ) = data.sum ∧
    std_dev data (mean data) ^ 2 * (data.length : ℝ) =
      (data.map (fun value => (mean data - value) * (mean data - value))).sum ∧
    std_dev [x] (mean [x]) = 0 ∧
    std_dev (List.replicate n y) (mean (List.replicate n y)) = 0 := by
  have hlen : (data.length : ℝ) ≠ 0 := by
    have h0 : data.length ≠ 0 := fun hz => hdata (List.length_eq_zero.mp hz)
    exact_mod_cast h0
  refine ⟨?_, ?_, ?_, ?_⟩
  · rw [mean, div_mul_cancel₀ _ hlen]
  · have hnonneg :
        0 ≤ (data.map (fun value => (mean data - value) * (mean data - value))).sum /
          (data.length : ℝ) := by
      apply div_nonneg
      · apply List.sum_nonneg
        intro a ha
        simp only [List.mem_map] at ha
        obtain ⟨v, _, rfl⟩ := ha
        exact mul_self_nonneg _
      · positivity
    rw [std_dev, Real.sq_sqrt hnonneg, div_mul_cancel₀ _ hlen]
  · have hm : mean [x] = x := by simp [mean]
    simp [std_dev, hm]
  · have hn0 : ((n : ℝ)) ≠ 0 := by
      have : (0 : Nat) < n := hn
      positivity
    have hm : mean (List.replicate n y) = y := by
      rw [mean, List.sum_replicate, List.length_replicate, nsmul_eq_mul,
        mul_div_cancel_left₀ _ hn0]
    rw [hm, std_dev]
    simp [List.map_replicate]

/-- C5 (witness): instantiation of `C5_population_statistics` at the
batch `[1, 2, 3]` with `n = 2`, `x = 5`, `y = 7`. -/
theorem C5_population_statistics_witness :
    (([(1 : ℝ), 2, 3] ≠ []) ∧ 1 ≤ 2) ∧
    (mean [(1 : ℝ), 2, 3] * (([(1 : ℝ), 2, 3].length : Nat) : ℝ) = [(1 : ℝ), 2, 3].sum ∧
      std_dev [(1 : ℝ), 2, 3] (mean [(1 : ℝ), 2, 3]) ^ 2 * (([(1 : ℝ), 2, 3].length : Nat) : ℝ) =
        ([(1 : ℝ), 2, 3].map
          (fun value => (mean [(1 : ℝ), 2, 3] - value) * (mean [(1 : ℝ), 2, 3] - value))).sum ∧
      std_dev [(5 : ℝ)] (mean [(5 : ℝ)]) = 0 ∧
      std_dev (List.replicate 2 (7 : ℝ)) (mean (List.replicate 2 (7 : ℝ))) = 0) :=
  ⟨⟨by simp, by norm_num⟩,
   C5_population_statistics [(1 : ℝ), 2, 3] (by simp) 2 (by norm_num) 5 7⟩

/-- C8: the seed of the trial with 0-based index `i` is `i * 702983`
(wrapping `u64` multiplication); the derivation is a function of the
index, and it is injective on all representable indices (`< 2^64`,
the range of `usize`/`u64`), as witnessed for the first five trials by
the seeds `0, 702983, 1405966, 2108949, 2811932`. -/
theorem C8_seed_derivation (i j : Nat) (hi : i < 2 ^ 64) (hj : j < 2 ^ 64) :
    seedOf i = i * 702983 % 2 ^ 64 ∧
    (seedOf i = seedOf j → i = j) ∧
    [seedOf 0, seedOf 1, seedOf 2, seedOf 3, seedOf 4] =
      [0, 702983, 1405966, 2108949, 2811932] := by
  refine ⟨rfl, ?_, by decide⟩
  intro h
  have hcop : Nat.gcd (2 ^ 64) 702983 = 1 := by decide
  have hmod : i * 702983 ≡ j * 702983 [MOD 2 ^ 64] := h
  have hij : i ≡ j [MOD 2 ^ 64] := Nat.ModEq.cancel_right_of_coprime hcop hmod
  have hmods : i % 2 ^ 64 = j % 2 ^ 64 := hij
  rwa [Nat.mod_eq_of_lt hi, Nat.mod_eq_of_lt hj] at hmods

/-- C8 (witness): instantiation of `C8_seed_derivation` at indices
`3` and `4`. -/
theorem C8_seed_derivation_witness :
    (3 < 2 ^ 64 ∧ 4 < 2 ^ 64) ∧
    (seedOf 3 = 3 * 702983 % 2 ^ 64 ∧
      (seedOf 3 = seedOf 4 → 3 = 4) ∧
      [seedOf 0, seedOf 1, seedOf 2, seedOf 3, seedOf 4] =
        [0, 702983, 1405966, 2108949, 2811932]) :=
  ⟨⟨by norm_num, by norm_num⟩,
   C8_seed_derivation 3 4 (by norm_num) (by norm_num)⟩

/-- C9: the fixed two-dimensional problems (`SixHumpCamel`,
`CrossInTray`) report supported dimensions `[2]` regardless of the
requested defaults; for every problem, the aggregation loop iterates
exactly over the returned supported-dimension list in its order — the
`dim` fields of the resulting `StatPoint` sequence reproduce that list
(one point per returned dimension, not sorted). -/
theorem C9_dimension_selection (runSHC runCIT : Nat → Nat → RunResult)
    (f : BenchmarkFn) (default_dims : List Nat) (runs : Nat) :
    (sixHumpCamelBench runSHC).supported_dims default_dims = [2] ∧
    (crossInTrayBench runCIT).supported_dims default_dims = [2] ∧
    (runStats f default_dims runs).map (fun p => p.dim) = f.supported_dims default_dims ∧
    (runStats (sixHumpCamelBench runSHC) default_dims runs).map (fun p => p.dim) = [2] := by
  have hdim : ∀ (run : Nat → Nat → RunResult) (dims : List Nat) (rs : Nat),
      ((dims.map fun dim => aggregateDim run dim rs).map fun p => p.dim) = dims := by
    intro run dims rs
    rw [List.map_map]
    have hc : ((fun p : StatPoint ℝ => p.dim) ∘ fun dim => aggregateDim run dim rs) = id := by
      funext dim
      rfl
    rw [hc, List.map_id]
  exact ⟨rfl, rfl, hdim f.run (f.supported_dims default_dims) runs, hdim runSHC [2] runs⟩

/-- C10: the aggregation step is total even when the batch-size
precondition is violated.  With a requested trial count of `0`
(reachable through the CLI `--runs` option), each problem still produces
one `StatPoint` per supported dimension rather than being rejected, and
`success_rate`, every mean and every standard deviation are computed as
the division `0 / 0` (the value a `0.0/0.0` `f64` division yields is
`NaN`; in this real-number model the division-by-zero convention gives
`0`, and `std_dev` is the square root of that quotient). -/
theorem C10_total_at_zero_trials (f : BenchmarkFn) (default_dims : List Nat) :
    runStats f default_dims 0 =
      (f.supported_dims default_dims).map (fun d =>
        { dim := d
          success_rate := (0 : ℝ) / (0 : ℝ)
          avg_runtime_sec := (0 : ℝ) / (0 : ℝ)
          std_runtime_sec := Real.sqrt ((0 : ℝ) / (0 : ℝ))
          avg_stage1_sec := (0 : ℝ) / (0 : ℝ)
          avg_stage2_sec := (0 : ℝ) / (0 : ℝ)
          avg_solution_set_size := (0 : ℝ) / (0 : ℝ)
          std_solution_set_size := Real.sqrt ((0 : ℝ) / (0 : ℝ))
          avg_best_obj := (0 : ℝ) / (0 : ℝ) }) := by
  have h : (fun d => aggregateDim f.run d 0) =
      (fun d =>
        ({ dim := d,
           success_rate := (0 : ℝ) / (0 : ℝ),
           avg_runtime_sec := (0 : ℝ) / (0 : ℝ),
           std_runtime_sec := Real.sqrt ((0 : ℝ) / (0 : ℝ)),
           avg_stage1_sec := (0 : ℝ) / (0 : ℝ),
           avg_stage2_sec := (0 : ℝ) / (0 : ℝ),
           avg_solution_set_size := (0 : ℝ) / (0 : ℝ),
           std_solution_set_size := Real.sqrt ((0 : ℝ) / (0 : ℝ)),
           avg_best_obj := (0 : ℝ) / (0 : ℝ) } : StatPoint ℝ)) := by
    funext d
    simp [aggregateDim, mean, std_dev]
  unfold runStats
  rw [h]
